import Mathlib

/-!
# Verification of the greentornado scheduling adapter

Shallow embedding of src/greentornado.py: an eventlet hub driven by
Tornado's IOLoop, with the Timer / LocalTimer delayed-call classes, the
validating factory call_later, the TornadoHub operations, and the greenify
decorator.  Mutable Python state (the foreign loop's timeout registrations,
timer fields, greenlet liveness) is passed explicitly; Python exceptions
are modelled with an error type.  Greenlets (cooperative tasks) are
identified by natural numbers; their liveness is a map `dead : Nat → Bool`
supplied at each observation point.  Callback payloads and their argument
tuples are abstracted into identifiers, with the one closure the source
builds (call_if_greenlet_alive) modelled structurally.
-/

/-- Python exception kinds raised by the code under verification:
    TypeError and ValueError from call_later (src lines 73-78), RuntimeError
    from TornadoHub.switch (src line 100), AttributeError from reading a
    deleted `tpl` attribute. -/
inductive PyErr
  | typeError
  | valueError
  | runtimeError
  | attributeError
deriving DecidableEq, Repr

/-- A stored callback payload.  `plain f` is a user function identified by
    `f` (with its argument tuple absorbed into the identifier).
    `localGuard f` is the `call_if_greenlet_alive` closure that
    `TornadoHub.schedule_call_local` (src lines 126-128) wraps around user
    function `f`; at run time that closure consults the owning timer's
    greenlet reference before running `f`. -/
inductive Callback
  | plain (f : Nat)
  | localGuard (f : Nat)
deriving DecidableEq, Repr

/-- Truthiness of the Python expression `g and g.dead` where `g` is the
    stored greenlet reference (src line 63).  Python `and` returns the left
    operand when it is falsy.  `None` is falsy.  For a greenlet object,
    `bool(g)` is its activity flag (greenlet's `__bool__` returns whether
    the greenlet is active, i.e. started and not finished); the greenlet
    captured by `LocalTimer.__init__` is the then-running greenlet, hence
    started, so it is truthy exactly when not dead.  Consequently the whole
    expression is truthy iff the owner is present, not dead, and dead -
    which never happens. -/
def gAndDead (dead : Nat → Bool) : Option Nat → Bool
  | Option.none => false
  | Option.some g => (!dead g) && dead g

/-- Truthiness of the Python expression `g and not g.dead` (used by
    `LocalTimer.pending`, src line 58, and by the `call_if_greenlet_alive`
    wrapper, src line 127): the first conjunct `bool(g)` is the activity
    flag (see `gAndDead`), the second is `not g.dead`; the expression is
    truthy iff the owner greenlet is present and alive. -/
def gAndNotDead (dead : Nat → Bool) : Option Nat → Bool
  | Option.none => false
  | Option.some g => (!dead g) && !dead g

/-- Running a stored callback once the loop invokes it, yielding the list
    of user functions actually executed.  A `plain` payload runs its user
    function unconditionally.  A `localGuard` payload is the
    call_if_greenlet_alive closure: `if t.greenlet and not t.greenlet.dead:
    return func(*args1, **kwargs1)` (src lines 127-128), where `owner` is
    the greenlet reference of the LocalTimer `t` the closure captured. -/
def Callback.run (cb : Callback) (owner : Option Nat) (dead : Nat → Bool) : List Nat :=
  match cb with
  | Callback.plain f => [f]
  | Callback.localGuard f => if gAndNotDead dead owner then [f] else []

/-- The foreign event loop (Tornado IOLoop) as seen by the adapter: the
    multiset of registered timeout deadlines.  `add_timeout` appends a
    deadline and returns it as the cancellation handle; `remove_timeout`
    erases one occurrence. -/
structure TornadoLoop where
  timeouts : List ℚ
deriving DecidableEq, Repr

/-- State of a `Timer` (src lines 27-46).  `seconds` and the payload `tpl`
    are stored by the eventlet base-class constructor; `called` is the
    fired/cancelled flag; `scheduled_time` is the handle returned by
    `add_timeout` and kept for cancellation.  `tpl = none` models the
    attribute having been deleted by `cancel`. -/
structure Timer where
  seconds : ℚ
  tpl : Option Callback
  called : Bool
  scheduled_time : ℚ
deriving DecidableEq, Repr

/-- `Timer.schedule` (src lines 34-38): resets `called` to False and
    registers a one-shot timeout with the foreign loop at
    `time.time() + self.seconds`, keeping the returned handle. -/
def Timer.schedule (t : Timer) (now : ℚ) (loop : TornadoLoop) : Timer × TornadoLoop :=
  ({ t with called := false, scheduled_time := now + t.seconds },
   { timeouts := loop.timeouts ++ [now + t.seconds] })

/-- `Timer.__init__` (src lines 30-32): the eventlet base-class constructor
    stores the delay and the payload and initializes `called` to False (the
    base class is external to src/ and is modelled from the spec, which
    gives a Timer exactly the attributes delay, payload and fired flag);
    then `self.schedule()` runs.  The pre-schedule `scheduled_time`
    placeholder 0 is immediately overwritten by `schedule`.  Note the
    constructor performs no validation of its arguments. -/
def Timer.init (seconds : ℚ) (cb : Callback) (now : ℚ) (loop : TornadoLoop) :
    Timer × TornadoLoop :=
  Timer.schedule { seconds := seconds, tpl := some cb, called := false, scheduled_time := 0 }
    now loop

/-- `Timer.cancel` (src lines 40-46): if not yet called, mark called,
    deregister the stored handle from the loop, and delete the payload
    attribute `tpl` if present; otherwise do nothing. -/
def Timer.cancel (t : Timer) (loop : TornadoLoop) : Timer × TornadoLoop :=
  if t.called then (t, loop)
  else ({ t with called := true, tpl := none },
        { timeouts := loop.timeouts.erase t.scheduled_time })

/-- Result of the foreign loop invoking a timer object: the updated timer,
    whether the stored `tpl` callback was actually invoked, the user
    functions that ran, and a raised exception if any. -/
structure FireOut (T : Type) where
  timer : T
  cbCalled : Bool
  ran : List Nat
  err : Option PyErr
deriving DecidableEq, Repr

/-- Modelled from the spec: `Timer` inherits its firing behavior
    (`__call__`) from the external eventlet base class
    `eventlet.hubs.timer.Timer`, which is not part of src/.  Per the spec a
    Timer fires its stored callback at most once: if not yet fired it marks
    itself fired and invokes the stored payload with the stored arguments.
    A missing payload (released by `cancel`) fails attribute lookup.  The
    owner argument passed to `Callback.run` is `none` because a plain Timer
    stores no owner-task reference. -/
def Timer.call (t : Timer) (dead : Nat → Bool) : FireOut Timer :=
  if t.called then { timer := t, cbCalled := false, ran := [], err := none }
  else
    match t.tpl with
    | Option.none =>
        { timer := { t with called := true }, cbCalled := false, ran := [],
          err := some PyErr.attributeError }
    | Option.some cb =>
        { timer := { t with called := true }, cbCalled := true,
          ran := cb.run Option.none dead, err := none }

/-- State of a `LocalTimer` (src lines 48-69): a Timer plus the greenlet
    reference captured by `eventlet.getcurrent()` at construction time
    (always an object, hence `some`; `none` models the reference having
    been cleared by `cancel`). -/
structure LocalTimer extends Timer where
  greenlet : Option Nat
deriving DecidableEq, Repr

/-- `LocalTimer.__init__` (src lines 51-53): capture the current greenlet,
    then delegate to `Timer.__init__`. -/
def LocalTimer.init (current : Nat) (seconds : ℚ) (cb : Callback) (now : ℚ)
    (loop : TornadoLoop) : LocalTimer × TornadoLoop :=
  let r := Timer.init seconds cb now loop
  ({ toTimer := r.1, greenlet := some current }, r.2)

/-- `LocalTimer.schedule`: inherited unchanged from `Timer.schedule`. -/
def LocalTimer.schedule (t : LocalTimer) (now : ℚ) (loop : TornadoLoop) :
    LocalTimer × TornadoLoop :=
  let r := Timer.schedule t.toTimer now loop
  ({ t with toTimer := r.1 }, r.2)

/-- `LocalTimer.pending` (src lines 55-58): truthiness of
    `not self.called and self.greenlet and not self.greenlet.dead`. -/
def LocalTimer.pending (t : LocalTimer) (dead : Nat → Bool) : Bool :=
  !t.called && gAndNotDead dead t.greenlet

/-- `LocalTimer.__call__` (src lines 60-65): if not yet called, mark
    called; then, unless the guard expression `self.greenlet and
    self.greenlet.dead` is truthy (see `gAndDead` - it never is), unpack
    the stored payload and invoke it.  A missing payload fails attribute
    lookup.  Note this override does not delete `tpl` after invoking. -/
def LocalTimer.call (t : LocalTimer) (dead : Nat → Bool) : FireOut LocalTimer :=
  if t.called then { timer := t, cbCalled := false, ran := [], err := none }
  else
    let t1 : LocalTimer := { t with called := true }
    if gAndDead dead t.greenlet then
      { timer := t1, cbCalled := false, ran := [], err := none }
    else
      match t.tpl with
      | Option.none =>
          { timer := t1, cbCalled := false, ran := [], err := some PyErr.attributeError }
      | Option.some cb =>
          { timer := t1, cbCalled := true, ran := cb.run t.greenlet dead, err := none }

/-- `LocalTimer.cancel` (src lines 67-69): clear the greenlet reference,
    then delegate to `Timer.cancel`. -/
def LocalTimer.cancel (t : LocalTimer) (loop : TornadoLoop) : LocalTimer × TornadoLoop :=
  let t1 : LocalTimer := { t with greenlet := none }
  let r := Timer.cancel t1.toTimer loop
  ({ t1 with toTimer := r.1 }, r.2)

/-- The runtime type of the `seconds` argument as classified by
    call_later's `isinstance(seconds, (int, float))` check (src line 75):
    a numeric value (int or float, embedded as a rational) or a value of
    any other type. -/
inductive SecondsArg
  | num (q : ℚ)
  | nonNum
deriving DecidableEq, Repr

/-- Which timer class is passed to `call_later` as `cls`. -/
inductive TimerCls
  | timer
  | localTimer
deriving DecidableEq, Repr

/-- The object `call_later` returns: an instance of whichever timer class
    was passed in. -/
inductive MadeTimer
  | plainT (t : Timer)
  | localT (t : LocalTimer)
deriving DecidableEq, Repr

/-- `call_later` (src lines 71-79): validate that the payload is callable
    (else TypeError), that the delay is int or float (else TypeError) and
    non-negative (else ValueError), then construct `cls(seconds, func,
    *args, **kwargs)`.  The pair returns the raised error or the
    constructed timer together with the foreign-loop state; every error
    path returns the loop unchanged, because the raise happens before
    `cls(...)` is reached.  `funcCallable` is the truth of Python
    `callable(func)`, `cb` the payload as stored, `current` the running
    greenlet (captured by LocalTimer's constructor). -/
def call_later (cls : TimerCls) (s : SecondsArg) (funcCallable : Bool) (cb : Callback)
    (current : Nat) (now : ℚ) (loop : TornadoLoop) :
    Except PyErr MadeTimer × TornadoLoop :=
  if !funcCallable then (Except.error PyErr.typeError, loop)
  else
    match s with
    | SecondsArg.nonNum => (Except.error PyErr.typeError, loop)
    | SecondsArg.num q =>
      if q < 0 then (Except.error PyErr.valueError, loop)
      else
        match cls with
        | TimerCls.timer =>
          let r := Timer.init q cb now loop
          (Except.ok (MadeTimer.plainT r.1), r.2)
        | TimerCls.localTimer =>
          let r := LocalTimer.init current q cb now loop
          (Except.ok (MadeTimer.localT r.1), r.2)

/-- The effect of a successful `TornadoHub.switch`: whether the calling
    greenlet was reparented onto the hub greenlet (the assignment on src
    line 103, whose ValueError is swallowed), and which greenlet received
    control. -/
structure SwitchEffect where
  reparented : Bool
  switchedTo : Nat
deriving DecidableEq, Repr

/-- The hub's own identity state (src lines 93-95): the greenlet that owns
    the main loop.  The IOLoop singleton is passed separately where
    needed. -/
structure TornadoHub where
  greenlet : Nat
deriving DecidableEq, Repr

/-- `TornadoHub.switch` (src lines 97-107): raise RuntimeError when the
    caller already is the hub greenlet (before any side effect); otherwise
    try to reparent the caller onto the hub greenlet, swallowing a
    ValueError from the greenlet runtime (`parentRejects` tells whether the
    runtime raises one), and transfer control to the hub greenlet. -/
def TornadoHub.switch (hub : TornadoHub) (current : Nat) (parentRejects : Bool) :
    Except PyErr SwitchEffect :=
  if current = hub.greenlet then Except.error PyErr.runtimeError
  else Except.ok { reparented := !parentRejects, switchedTo := hub.greenlet }

/-- The user function argument passed to the two scheduling entry points:
    its callability and its identifier. -/
structure FuncArg where
  isCallable : Bool
  funcId : Nat
deriving DecidableEq, Repr

/-- `TornadoHub.schedule_call_local` (src lines 124-131): wrap `func` in
    the call_if_greenlet_alive closure (a def, hence always callable) and
    construct a LocalTimer through `call_later`, returning the timer. -/
def schedule_call_local (current : Nat) (s : SecondsArg) (f : FuncArg) (now : ℚ)
    (loop : TornadoLoop) : Except PyErr MadeTimer × TornadoLoop :=
  call_later TimerCls.localTimer s true (Callback.localGuard f.funcId) current now loop

/-- `TornadoHub.schedule_call_global` (src lines 135-137): construct a
    plain Timer through `call_later` with `func` itself as payload. -/
def schedule_call_global (current : Nat) (s : SecondsArg) (f : FuncArg) (now : ℚ)
    (loop : TornadoLoop) : Except PyErr MadeTimer × TornadoLoop :=
  call_later TimerCls.timer s f.isCallable (Callback.plain f.funcId) current now loop

/-- One step of the operation traces claim C4 quantifies over: the foreign
    loop firing the timer object, a user `cancel()`, or a user
    `schedule()` at a given current time. -/
inductive TOp
  | fire
  | cancel
  | sched (now : ℚ)
deriving DecidableEq, Repr

/-- Run a sequence of operations against a plain Timer, counting how many
    times the stored callback was invoked. -/
def Timer.runOps : Timer → TornadoLoop → (Nat → Bool) → List TOp → Timer × TornadoLoop × Nat
  | t, loop, _, [] => (t, loop, 0)
  | t, loop, dead, TOp.fire :: ops =>
      let r := Timer.call t dead
      let rest := Timer.runOps r.timer loop dead ops
      (rest.1, rest.2.1, (if r.cbCalled then 1 else 0) + rest.2.2)
  | t, loop, dead, TOp.cancel :: ops =>
      let r := Timer.cancel t loop
      Timer.runOps r.1 r.2 dead ops
  | t, loop, dead, TOp.sched now :: ops =>
      let r := Timer.schedule t now loop
      Timer.runOps r.1 r.2 dead ops

/-- Run a sequence of operations against a LocalTimer, counting how many
    times the stored callback was invoked. -/
def LocalTimer.runOps : LocalTimer → TornadoLoop → (Nat → Bool) → List TOp → LocalTimer × TornadoLoop × Nat
  | t, loop, _, [] => (t, loop, 0)
  | t, loop, dead, TOp.fire :: ops =>
      let r := LocalTimer.call t dead
      let rest := LocalTimer.runOps r.timer loop dead ops
      (rest.1, rest.2.1, (if r.cbCalled then 1 else 0) + rest.2.2)
  | t, loop, dead, TOp.cancel :: ops =>
      let r := LocalTimer.cancel t loop
      LocalTimer.runOps r.1 r.2 dead ops
  | t, loop, dead, TOp.sched now :: ops =>
      let r := LocalTimer.schedule t now loop
      LocalTimer.runOps r.1 r.2 dead ops

/-- Whether a trace step is a re-schedule. -/
def TOp.isSched : TOp → Bool
  | TOp.sched _ => true
  | _ => false

/-- A Python function as seen by the greenify decorator: its metadata and
    identity. -/
structure PyFunc where
  name : String
  doc : Option String
  module : String
  funcId : Nat
deriving DecidableEq, Repr

/-- The `_execute` attribute of a handler class: either the native method
    or the `_execute_wrapper` built by greenify (src lines 14-15), which
    spawns the wrapped method as a cooperative task via
    `eventlet.spawn_n`. -/
inductive ExecMethod
  | native (id : Nat)
  | spawnWrap (inner : ExecMethod)
deriving DecidableEq, Repr

/-- A Python class as seen by the greenify decorator: its object identity,
    metadata, whether it is a `tornado.web.RequestHandler` subclass, its
    `_execute` attribute, all its other attributes (abstracted to
    name/value pairs), and whether an `original` attribute exists on it. -/
structure PyClass where
  objId : Nat
  name : String
  doc : Option String
  module : String
  isRequestHandlerSub : Bool
  execute : ExecMethod
  otherAttrs : List (String × Nat)
  hasOriginalAttr : Bool
deriving DecidableEq, Repr

/-- The argument to greenify: a class or a plain function. -/
inductive ClsOrFunc
  | cls (c : PyClass)
  | func (f : PyFunc)
deriving DecidableEq, Repr

/-- The wrapper the function branch of greenify builds (src lines 20-25):
    `functools.wraps` copies the wrapped callable's name, docstring and
    module onto it, and `wrapper.original` is set to the undecorated
    argument. -/
structure GreenWrapper where
  name : String
  doc : Option String
  module : String
  original : ClsOrFunc
deriving DecidableEq, Repr

/-- What greenify returns: the (mutated) class object itself, or a fresh
    wrapper function. -/
inductive GreenifyResult
  | klass (c : PyClass)
  | wrapped (w : GreenWrapper)
deriving DecidableEq, Repr

/-- Metadata accessors used by `functools.wraps`. -/
def ClsOrFunc.metaName : ClsOrFunc → String
  | ClsOrFunc.cls c => c.name
  | ClsOrFunc.func f => f.name

def ClsOrFunc.metaDoc : ClsOrFunc → Option String
  | ClsOrFunc.cls c => c.doc
  | ClsOrFunc.func f => f.doc

def ClsOrFunc.metaModule : ClsOrFunc → String
  | ClsOrFunc.cls c => c.module
  | ClsOrFunc.func f => f.module

/-- `greenify` (src lines 9-25): if the argument is a class and a
    RequestHandler subclass, replace its `_execute` attribute in place with
    a wrapper that spawns the original `_execute` as a cooperative task,
    and return the same class object (no other attribute is touched and no
    `original` attribute is added).  Otherwise build a fresh wrapper
    carrying the argument's metadata (functools.wraps) and exposing the
    undecorated argument as `original`. -/
def greenify (x : ClsOrFunc) : GreenifyResult :=
  match x with
  | ClsOrFunc.cls c =>
    if c.isRequestHandlerSub then
      GreenifyResult.klass { c with execute := ExecMethod.spawnWrap c.execute }
    else
      GreenifyResult.wrapped
        { name := x.metaName, doc := x.metaDoc, module := x.metaModule, original := x }
  | ClsOrFunc.func _ =>
    GreenifyResult.wrapped
      { name := x.metaName, doc := x.metaDoc, module := x.metaModule, original := x }

/-- The spec formula for `pending`:
    `!fired && ownerTask exists && !ownerTask.terminated`. -/
def specPending (t : LocalTimer) (dead : Nat → Bool) : Bool :=
  !t.called && t.greenlet.isSome &&
    !(match t.greenlet with
      | Option.some g => dead g
      | Option.none => false)

/-! ## Helper lemmas -/

/-- The suppression guard of `LocalTimer.__call__` is identically false:
    for a present owner the expression needs the owner both active and
    dead. -/
theorem gAndDead_eq_false (dead : Nat → Bool) (g : Option Nat) : gAndDead dead g = false := by
  cases g with
  | none => rfl
  | some gid => cases h : dead gid <;> simp [gAndDead, h]

theorem Timer.call_of_called {t : Timer} (dead : Nat → Bool) (h : t.called = true) :
    Timer.call t dead = { timer := t, cbCalled := false, ran := [], err := none } := by
  simp [Timer.call, h]

theorem Timer.call_timer_called {t : Timer} (dead : Nat → Bool) (h : t.called = false) :
    (Timer.call t dead).timer.called = true := by
  cases htpl : t.tpl <;> simp [Timer.call, h, htpl]

theorem Timer.cancel_fst_called (t : Timer) (loop : TornadoLoop) :
    (Timer.cancel t loop).1.called = true := by
  cases h : t.called <;> simp [Timer.cancel, h]

theorem LocalTimer.localCall_of_called {t : LocalTimer} (dead : Nat → Bool) (h : t.called = true) :
    LocalTimer.call t dead = { timer := t, cbCalled := false, ran := [], err := none } := by
  simp [LocalTimer.call, h]

theorem LocalTimer.localCall_timer_called {t : LocalTimer} (dead : Nat → Bool) (h : t.called = false) :
    (LocalTimer.call t dead).timer.called = true := by
  cases hg : gAndDead dead t.greenlet <;> cases htpl : t.tpl <;>
    simp [LocalTimer.call, h, hg, htpl]

theorem LocalTimer.localCancel_fst_called (t : LocalTimer) (loop : TornadoLoop) :
    (LocalTimer.cancel t loop).1.called = true := by
  simp [LocalTimer.cancel, Timer.cancel_fst_called]

theorem Timer.runOps_zero : ∀ (ops : List TOp) (t : Timer) (loop : TornadoLoop)
    (dead : Nat → Bool), (∀ op ∈ ops, TOp.isSched op = false) → t.called = true →
    (Timer.runOps t loop dead ops).2.2 = 0 := by
  intro ops
  induction ops with
  | nil => intro t loop dead _ _; rfl
  | cons op ops ih =>
    intro t loop dead hns hc
    have hns2 : ∀ op ∈ ops, TOp.isSched op = false :=
      fun o ho => hns o (List.mem_cons_of_mem _ ho)
    cases op with
    | fire =>
      simp [Timer.runOps, Timer.call_of_called dead hc, ih t loop dead hns2 hc]
    | cancel =>
      have hcan : Timer.cancel t loop = (t, loop) := by simp [Timer.cancel, hc]
      simpa [Timer.runOps, hcan] using ih t loop dead hns2 hc
    | sched now =>
      have := hns (TOp.sched now) (List.mem_cons_self _ _)
      simp [TOp.isSched] at this

theorem LocalTimer.localRunOps_zero : ∀ (ops : List TOp) (t : LocalTimer) (loop : TornadoLoop)
    (dead : Nat → Bool), (∀ op ∈ ops, TOp.isSched op = false) → t.called = true →
    (LocalTimer.runOps t loop dead ops).2.2 = 0 := by
  intro ops
  induction ops with
  | nil => intro t loop dead _ _; rfl
  | cons op ops ih =>
    intro t loop dead hns hc
    have hns2 : ∀ op ∈ ops, TOp.isSched op = false :=
      fun o ho => hns o (List.mem_cons_of_mem _ ho)
    cases op with
    | fire =>
      simp [LocalTimer.runOps, LocalTimer.localCall_of_called dead hc, ih t loop dead hns2 hc]
    | cancel =>
      have hc2 : (LocalTimer.cancel t loop).1.called = true :=
        LocalTimer.localCancel_fst_called t loop
      simpa [LocalTimer.runOps] using
        ih (LocalTimer.cancel t loop).1 (LocalTimer.cancel t loop).2 dead hns2 hc2
    | sched now =>
      have := hns (TOp.sched now) (List.mem_cons_self _ _)
      simp [TOp.isSched] at this

theorem Timer.runOps_le_one : ∀ (ops : List TOp) (t : Timer) (loop : TornadoLoop)
    (dead : Nat → Bool), (∀ op ∈ ops, TOp.isSched op = false) →
    (Timer.runOps t loop dead ops).2.2 ≤ 1 := by
  intro ops
  induction ops with
  | nil => intro t loop dead _; exact Nat.zero_le 1
  | cons op ops ih =>
    intro t loop dead hns
    have hns2 : ∀ op ∈ ops, TOp.isSched op = false :=
      fun o ho => hns o (List.mem_cons_of_mem _ ho)
    cases op with
    | fire =>
      cases hc : t.called with
      | true => simp [Timer.runOps_zero (TOp.fire :: ops) t loop dead hns hc]
      | false =>
        have hrest := Timer.runOps_zero ops (Timer.call t dead).timer loop dead hns2
          (Timer.call_timer_called dead hc)
        simp only [Timer.runOps, hrest]
        split <;> omega
    | cancel =>
      have hrest := Timer.runOps_zero ops (Timer.cancel t loop).1 (Timer.cancel t loop).2 dead
        hns2 (Timer.cancel_fst_called t loop)
      simp [Timer.runOps, hrest]
    | sched now =>
      have := hns (TOp.sched now) (List.mem_cons_self _ _)
      simp [TOp.isSched] at this

theorem LocalTimer.localRunOps_le_one : ∀ (ops : List TOp) (t : LocalTimer) (loop : TornadoLoop)
    (dead : Nat → Bool), (∀ op ∈ ops, TOp.isSched op = false) →
    (LocalTimer.runOps t loop dead ops).2.2 ≤ 1 := by
  intro ops
  induction ops with
  | nil => intro t loop dead _; exact Nat.zero_le 1
  | cons op ops ih =>
    intro t loop dead hns
    have hns2 : ∀ op ∈ ops, TOp.isSched op = false :=
      fun o ho => hns o (List.mem_cons_of_mem _ ho)
    cases op with
    | fire =>
      cases hc : t.called with
      | true => simp [LocalTimer.localRunOps_zero (TOp.fire :: ops) t loop dead hns hc]
      | false =>
        have hrest := LocalTimer.localRunOps_zero ops (LocalTimer.call t dead).timer loop dead hns2
          (LocalTimer.localCall_timer_called dead hc)
        simp only [LocalTimer.runOps, hrest]
        split <;> omega
    | cancel =>
      have hrest := LocalTimer.localRunOps_zero ops (LocalTimer.cancel t loop).1
        (LocalTimer.cancel t loop).2 dead hns2 (LocalTimer.localCancel_fst_called t loop)
      simp [LocalTimer.runOps, hrest]
    | sched now =>
      have := hns (TOp.sched now) (List.mem_cons_self _ _)
      simp [TOp.isSched] at this

/-! ## Claim theorems -/

/-- C1 (counterexample): the claim asserts that constructing a timer via
    the Timer constructor directly with a negative delay fails with an
    InvalidArgument error.  It does not: `Timer.__init__` (src lines 30-32)
    performs no validation, so direct construction with delay -1 succeeds,
    producing a normal timer (fired flag false, payload stored) and
    registering a timeout with the foreign loop. -/
theorem C1_direct_construction_no_validation :
    Timer.init (-1) (Callback.plain 0) 0 ⟨[]⟩
      = (⟨-1, some (Callback.plain 0), false, -1⟩, ⟨[-1]⟩) := by
  simp [Timer.init, Timer.schedule]

/-- C1 (amended): through the validating factory `call_later`, a
    non-callable payload fails with TypeError, a non-numeric delay fails
    with TypeError, a negative delay fails with ValueError, and a
    non-negative numeric delay with a callable payload succeeds; the Timer
    constructor itself performs no validation and succeeds for every delay,
    initializing the fired flag false and registering exactly one timeout
    with the foreign loop. -/
theorem C1_amended_validation :
    (∀ cls s cb current now loop,
        call_later cls s false cb current now loop = (Except.error PyErr.typeError, loop))
  ∧ (∀ cls cb current now loop,
        call_later cls SecondsArg.nonNum true cb current now loop
          = (Except.error PyErr.typeError, loop))
  ∧ (∀ cls q cb current now loop, q < 0 →
        call_later cls (SecondsArg.num q) true cb current now loop
          = (Except.error PyErr.valueError, loop))
  ∧ (∀ cls q cb current now loop, 0 ≤ q →
        ∃ t loop2, call_later cls (SecondsArg.num q) true cb current now loop
          = (Except.ok t, loop2))
  ∧ (∀ q cb now loop,
        (Timer.init q cb now loop).1.called = false
          ∧ (Timer.init q cb now loop).1.seconds = q
          ∧ (Timer.init q cb now loop).2.timeouts = loop.timeouts ++ [now + q]) := by
  refine ⟨?_, ?_, ?_, ?_, ?_⟩
  · intro cls s cb current now loop; simp [call_later]
  · intro cls cb current now loop; simp [call_later]
  · intro cls q cb current now loop h; simp [call_later, h]
  · intro cls q cb current now loop h
    have hnl : ¬q < 0 := not_lt.mpr h
    cases cls with
    | timer =>
      refine ⟨MadeTimer.plainT (Timer.init q cb now loop).1,
        (Timer.init q cb now loop).2, ?_⟩
      simp [call_later, hnl]
    | localTimer =>
      refine ⟨MadeTimer.localT (LocalTimer.init current q cb now loop).1,
        (LocalTimer.init current q cb now loop).2, ?_⟩
      simp [call_later, hnl]
  · intro q cb now loop; simp [Timer.init, Timer.schedule]

/-- C1 (witness): the amended theorem instantiated at delay -1 (rejected)
    and delay 2 (accepted). -/
theorem C1_witness :
    call_later TimerCls.timer (SecondsArg.num (-1)) true (Callback.plain 0) 0 0 ⟨[]⟩
        = (Except.error PyErr.valueError, ⟨[]⟩)
  ∧ (∃ t loop2, call_later TimerCls.timer (SecondsArg.num 2) true (Callback.plain 0) 0 0 ⟨[]⟩
        = (Except.ok t, loop2)) :=
  ⟨C1_amended_validation.2.2.1 TimerCls.timer (-1) (Callback.plain 0) 0 0 ⟨[]⟩ (by norm_num),
   C1_amended_validation.2.2.2.1 TimerCls.timer 2 (Callback.plain 0) 0 0 ⟨[]⟩ (by norm_num)⟩

/-- C2 (code-bug evaluation): the claim (and the spec invariant) say that
    when the owner task is terminated at fire time the stored callback is
    suppressed while the fired flag still becomes true.  The code invokes
    the callback anyway: at a LocalTimer with `called = false`, owner
    greenlet 7 dead, and payload `plain 3`, `LocalTimer.__call__` runs the
    stored callback (`cbCalled = true`, user function 3 executed), because
    `bool(greenlet)` is the activity flag, so a dead greenlet is falsy and
    the guard `not (self.greenlet and self.greenlet.dead)` is always
    true. -/
theorem C2_dead_owner_callback_still_invoked :
    LocalTimer.call ⟨⟨5, some (Callback.plain 3), false, 5⟩, some 7⟩ (fun _ => true)
      = ⟨⟨⟨5, some (Callback.plain 3), true, 5⟩, some 7⟩, true, [3], none⟩ := rfl

/-- C3: a delayed call scheduled with schedule_call_local never executes
    its user function when the requesting task is terminated at fire time
    (the call_if_greenlet_alive wrapper skips it), while a delayed call
    scheduled with schedule_call_global executes its user function at fire
    time whatever the liveness map says; both operations return the
    constructed timer object. -/
theorem C3_local_suppressed_global_unconditional :
    (∀ current q fid fc now loop dead, 0 ≤ q → dead current = true →
        ∃ t loop2,
          schedule_call_local current (SecondsArg.num q) ⟨fc, fid⟩ now loop
            = (Except.ok (MadeTimer.localT t), loop2)
          ∧ (LocalTimer.call t dead).ran = [])
  ∧ (∀ current q fid now loop dead, 0 ≤ q →
        ∃ t loop2,
          schedule_call_global current (SecondsArg.num q) ⟨true, fid⟩ now loop
            = (Except.ok (MadeTimer.plainT t), loop2)
          ∧ (Timer.call t dead).ran = [fid]) := by
  constructor
  · intro current q fid fc now loop dead hq hdead
    have hnl : ¬q < 0 := not_lt.mpr hq
    refine ⟨⟨⟨q, some (Callback.localGuard fid), false, now + q⟩, some current⟩,
      ⟨loop.timeouts ++ [now + q]⟩, ?_, ?_⟩
    · simp [schedule_call_local, call_later, hnl, LocalTimer.init, Timer.init, Timer.schedule]
    · simp [LocalTimer.call, gAndDead, hdead, Callback.run, gAndNotDead]
  · intro current q fid now loop dead hq
    have hnl : ¬q < 0 := not_lt.mpr hq
    refine ⟨⟨q, some (Callback.plain fid), false, now + q⟩,
      ⟨loop.timeouts ++ [now + q]⟩, ?_, ?_⟩
    · simp [schedule_call_global, call_later, hnl, Timer.init, Timer.schedule]
    · simp [Timer.call, Callback.run]

/-- C3 (witness): with every task dead, a local schedule from task 0 runs
    nothing at fire time while a global schedule still runs function 3. -/
theorem C3_witness :
    (∃ t loop2, schedule_call_local 0 (SecondsArg.num 1) ⟨true, 3⟩ 0 ⟨[]⟩
          = (Except.ok (MadeTimer.localT t), loop2)
        ∧ (LocalTimer.call t (fun _ => true)).ran = [])
  ∧ (∃ t loop2, schedule_call_global 0 (SecondsArg.num 1) ⟨true, 3⟩ 0 ⟨[]⟩
          = (Except.ok (MadeTimer.plainT t), loop2)
        ∧ (Timer.call t (fun _ => true)).ran = [3]) :=
  ⟨C3_local_suppressed_global_unconditional.1 0 1 3 true 0 ⟨[]⟩ (fun _ => true)
      (by norm_num) rfl,
   C3_local_suppressed_global_unconditional.2 0 1 3 0 ⟨[]⟩ (fun _ => true) (by norm_num)⟩

/-- C4 (counterexample): the claim bounds the callback invocations by one
    for any sequence of schedule and cancel operations.  But `schedule`
    (src line 36) resets `called` to False, so the sequence fire, schedule,
    fire on a fresh LocalTimer with a live owner invokes the stored
    callback twice. -/
theorem C4_reschedule_double_invocation :
    (LocalTimer.runOps ⟨⟨5, some (Callback.plain 3), false, 5⟩, some 7⟩ ⟨[]⟩
        (fun _ => false) [TOp.fire, TOp.sched 0, TOp.fire]).2.2 = 2 := rfl

/-- C4 (amended): for any sequence of fire and cancel operations without
    re-scheduling, the stored callback is invoked at most once, on Timer
    and on LocalTimer alike; cancelling twice leaves timer and loop exactly
    as cancelling once; cancel after the timer has fired is a no-op on a
    Timer, and on a LocalTimer changes nothing except clearing the
    owner-task reference. -/
theorem C4_amended_at_most_once :
    (∀ (ops : List TOp) (t : Timer) (loop : TornadoLoop) (dead : Nat → Bool),
        (∀ op ∈ ops, TOp.isSched op = false) → (Timer.runOps t loop dead ops).2.2 ≤ 1)
  ∧ (∀ (ops : List TOp) (t : LocalTimer) (loop : TornadoLoop) (dead : Nat → Bool),
        (∀ op ∈ ops, TOp.isSched op = false) → (LocalTimer.runOps t loop dead ops).2.2 ≤ 1)
  ∧ (∀ (t : Timer) (loop : TornadoLoop),
        Timer.cancel (Timer.cancel t loop).1 (Timer.cancel t loop).2 = Timer.cancel t loop)
  ∧ (∀ (t : LocalTimer) (loop : TornadoLoop),
        LocalTimer.cancel (LocalTimer.cancel t loop).1 (LocalTimer.cancel t loop).2
          = LocalTimer.cancel t loop)
  ∧ (∀ (t : Timer) (loop : TornadoLoop), t.called = true → Timer.cancel t loop = (t, loop))
  ∧ (∀ (t : LocalTimer) (loop : TornadoLoop), t.called = true →
        LocalTimer.cancel t loop = (⟨t.toTimer, none⟩, loop)) := by
  refine ⟨Timer.runOps_le_one, LocalTimer.localRunOps_le_one, ?_, ?_, ?_, ?_⟩
  · intro t loop; cases hc : t.called <;> simp [Timer.cancel, hc]
  · intro t loop
    obtain ⟨⟨sec, tpl, called, st⟩, g⟩ := t
    cases called <;> simp [LocalTimer.cancel, Timer.cancel]
  · intro t loop h; simp [Timer.cancel, h]
  · intro t loop h
    obtain ⟨⟨sec, tpl, called, st⟩, g⟩ := t
    simp only [] at h
    simp [LocalTimer.cancel, Timer.cancel, h]

/-- C4 (witness): the amended theorem instantiated at a fresh Timer and
    LocalTimer with the trace fire-then-cancel, and at already-fired timers
    being cancelled. -/
theorem C4_witness :
    (Timer.runOps ⟨5, some (Callback.plain 3), false, 5⟩ ⟨[]⟩ (fun _ => false)
        [TOp.fire, TOp.cancel]).2.2 ≤ 1
  ∧ (LocalTimer.runOps ⟨⟨5, some (Callback.plain 3), false, 5⟩, some 7⟩ ⟨[]⟩
        (fun _ => false) [TOp.fire, TOp.cancel]).2.2 ≤ 1
  ∧ Timer.cancel ⟨5, some (Callback.plain 3), true, 5⟩ ⟨[]⟩
      = (⟨5, some (Callback.plain 3), true, 5⟩, ⟨[]⟩)
  ∧ LocalTimer.cancel ⟨⟨5, some (Callback.plain 3), true, 5⟩, some 7⟩ ⟨[]⟩
      = (⟨⟨5, some (Callback.plain 3), true, 5⟩, none⟩, ⟨[]⟩) :=
  ⟨C4_amended_at_most_once.1 [TOp.fire, TOp.cancel] _ _ _ (by decide),
   C4_amended_at_most_once.2.1 [TOp.fire, TOp.cancel] _ _ _ (by decide),
   C4_amended_at_most_once.2.2.2.2.1 _ _ rfl,
   C4_amended_at_most_once.2.2.2.2.2 _ _ rfl⟩

/-- C5: switching to the main loop from the main-loop greenlet itself
    raises RuntimeError before any side effect; from any other greenlet it
    reparents the caller onto the hub greenlet unless the runtime rejects
    the assignment (a rejection is swallowed) and in either case transfers
    control to the hub greenlet. -/
theorem C5_switch_illegal_and_best_effort :
    (∀ (hub : TornadoHub) (current : Nat) (parentRejects : Bool),
        current = hub.greenlet →
        TornadoHub.switch hub current parentRejects = Except.error PyErr.runtimeError)
  ∧ (∀ (hub : TornadoHub) (current : Nat) (parentRejects : Bool),
        current ≠ hub.greenlet →
        TornadoHub.switch hub current parentRejects
          = Except.ok ⟨!parentRejects, hub.greenlet⟩) := by
  constructor
  · intro hub current pr h; simp [TornadoHub.switch, h]
  · intro hub current pr h; simp [TornadoHub.switch, h]

/-- C5 (witness): switching from the hub greenlet fails; switching from
    greenlet 1 with a rejected reparenting still lands on greenlet 0. -/
theorem C5_witness :
    TornadoHub.switch ⟨0⟩ 0 false = Except.error PyErr.runtimeError
  ∧ TornadoHub.switch ⟨0⟩ 1 true = Except.ok ⟨false, 0⟩ :=
  ⟨C5_switch_illegal_and_best_effort.1 ⟨0⟩ 0 false rfl,
   C5_switch_illegal_and_best_effort.2 ⟨0⟩ 1 true (by decide)⟩

/-- C6: every validation failure of call_later - non-callable payload,
    non-numeric delay, negative delay - yields the error synchronously and
    leaves the foreign loop's registrations untouched, and the error result
    carries no timer object: the raise happens before `cls(...)` is
    reached. -/
theorem C6_no_side_effect_on_invalid :
    (∀ cls s cb current now loop,
        (call_later cls s false cb current now loop).1 = Except.error PyErr.typeError
          ∧ (call_later cls s false cb current now loop).2 = loop)
  ∧ (∀ cls cb current now loop,
        (call_later cls SecondsArg.nonNum true cb current now loop).1
            = Except.error PyErr.typeError
          ∧ (call_later cls SecondsArg.nonNum true cb current now loop).2 = loop)
  ∧ (∀ cls q cb current now loop, q < 0 →
        (call_later cls (SecondsArg.num q) true cb current now loop).1
            = Except.error PyErr.valueError
          ∧ (call_later cls (SecondsArg.num q) true cb current now loop).2 = loop) := by
  refine ⟨?_, ?_, ?_⟩
  · intro cls s cb current now loop; simp [call_later]
  · intro cls cb current now loop; simp [call_later]
  · intro cls q cb current now loop h; simp [call_later, h]

/-- C6 (witness): a negative delay is rejected with ValueError and the
    loop keeps exactly its single prior registration. -/
theorem C6_witness :
    (call_later TimerCls.localTimer (SecondsArg.num (-1)) true (Callback.plain 0) 0 0
        ⟨[9]⟩).1 = Except.error PyErr.valueError
  ∧ (call_later TimerCls.localTimer (SecondsArg.num (-1)) true (Callback.plain 0) 0 0
        ⟨[9]⟩).2 = ⟨[9]⟩ :=
  C6_no_side_effect_on_invalid.2.2 TimerCls.localTimer (-1) (Callback.plain 0) 0 0 ⟨[9]⟩
    (by norm_num)

/-- C7: `LocalTimer.pending` coincides with the spec's derived formula
    `!fired && ownerTask exists && !ownerTask.terminated` for every timer
    state and liveness map. -/
theorem C7_pending_formula (t : LocalTimer) (dead : Nat → Bool) :
    t.pending dead = specPending t dead := by
  cases hg : t.greenlet with
  | none => simp [LocalTimer.pending, specPending, gAndNotDead, hg]
  | some g => cases hd : dead g <;>
      simp [LocalTimer.pending, specPending, gAndNotDead, hg, hd]

/-- C8: after `LocalTimer.cancel` returns, the owner-task reference is
    absent and `pending` is false under every liveness map, whatever state
    the timer was in - in particular even if the loop has not yet attempted
    to fire it. -/
theorem C8_cancel_clears_owner_pending_false (t : LocalTimer) (loop : TornadoLoop) :
    (LocalTimer.cancel t loop).1.greenlet = none
      ∧ ∀ dead, (LocalTimer.cancel t loop).1.pending dead = false := by
  constructor
  · simp [LocalTimer.cancel]
  · intro dead; simp [LocalTimer.cancel, LocalTimer.pending, gAndNotDead]

/-- C9: decorating a plain function with greenify yields a wrapper whose
    name, docstring and module equal the original's and whose `original`
    attribute is the undecorated function itself. -/
theorem C9_greenify_function_metadata (f : PyFunc) :
    greenify (ClsOrFunc.func f)
      = GreenifyResult.wrapped ⟨f.name, f.doc, f.module, ClsOrFunc.func f⟩ := rfl

/-- C10: greenify applied to a RequestHandler subclass returns the very
    same class object mutated in place: only `_execute` is replaced, by a
    wrapper spawning the original `_execute` as a cooperative task; the
    object identity, metadata and all other attributes are unchanged, and
    no `original` attribute is added. -/
theorem C10_greenify_class_inplace (c : PyClass) (h : c.isRequestHandlerSub = true) :
    greenify (ClsOrFunc.cls c)
      = GreenifyResult.klass
          ⟨c.objId, c.name, c.doc, c.module, c.isRequestHandlerSub,
           ExecMethod.spawnWrap c.execute, c.otherAttrs, c.hasOriginalAttr⟩ := by
  obtain ⟨oid, nm, dc, md, sub, ex, oa, ho⟩ := c
  simp only [] at h
  simp [greenify, h]

/-- C10 (witness): a concrete handler class keeps its identity, metadata
    and attributes, with only `_execute` wrapped. -/
theorem C10_witness :
    greenify (ClsOrFunc.cls ⟨1, "H", none, "m", true, ExecMethod.native 9,
        [("get", 4)], false⟩)
      = GreenifyResult.klass ⟨1, "H", none, "m", true,
          ExecMethod.spawnWrap (ExecMethod.native 9), [("get", 4)], false⟩ :=
  C10_greenify_class_inplace _ rfl
